import Mathlib

/-!
Shallow embedding of the ticket/chat core of the RVM student portal backend:
the chat controller (sendMessage/getMessages), the ticket management
controller (createTicket/getAllTickets/updateTicket/deleteTicket and the
centralized handleSupabaseError), and the reopen action.

JavaScript request-body fields are modelled as `Option String` (absent =
`none`); JS truthiness of such a field is `truthy`.  The backing relational
store is modelled as in-memory lists; timestamps are `Nat`; server responses
are per-handler result types carrying the HTTP status information the
handlers produce.  Each mutating handler additionally returns the ordered
list of effects it performs (primary store write, audit-log write, response
emission), so that ordering/blocking properties of the handlers can be
stated.
-/

namespace RVM

/-- JS truthiness of an optional string request field: present and non-empty. -/
def truthy : Option String → Bool
  | none => false
  | some s => !(s == "")

/-- JS or-else defaulting for string fields, as in the priority default. -/
def orDefault (v : Option String) (d : String) : String :=
  match v with
  | none => d
  | some s => if s == "" then d else s

/-- Boolean test that `needle` occurs as a contiguous subsequence of `hay`
(the semantics of a SQL ilike with surrounding wildcards, after lowercasing). -/
def containsSeq (needle : List Char) : List Char → Bool
  | [] => needle.isPrefixOf ([] : List Char)
  | c :: t => needle.isPrefixOf (c :: t) || containsSeq needle t

/-- The characters of a string, lowercased. -/
def lowerChars (s : String) : List Char :=
  s.toList.map Char.toLower

/-- Case-insensitive substring test on strings. -/
def containsCI (hay needle : String) : Bool :=
  containsSeq (lowerChars needle) (lowerChars hay)

/-- A staff account row of the `users` table. -/
structure UserAcct where
  id : String
  username : String
deriving DecidableEq

/-- A student row of the `students` table. -/
structure Student where
  id : String
  name : String
deriving DecidableEq

/-- A row of the `tickets` table. -/
structure Ticket where
  id : String
  title : String
  description : String
  status : String
  priority : String
  category : String
  student_id : String
  assignee_id : Option String
  created_at : Nat
  updated_at : Nat
deriving DecidableEq

/-- A row of the `messages` table. -/
structure Message where
  id : String
  ticket_id : String
  message : String
  sender_user_id : Option String
  sender_student_id : Option String
  created_at : Nat
deriving DecidableEq

/-- The backing relational store. -/
structure Store where
  tickets : List Ticket
  messages : List Message
  users : List UserAcct
  students : List Student
deriving DecidableEq

/-- A message carries exactly one sender reference. -/
def exactlyOneSender (m : Message) : Bool :=
  m.sender_user_id.isSome != m.sender_student_id.isSome

/-! ### Chat controller (`sendMessage`, `getMessages`) -/

/-- Body of `POST .../chat`: `{ sender_user_id, sender_student_id, message }`. -/
structure SendReq where
  sender_user_id : Option String
  sender_student_id : Option String
  message : Option String
deriving DecidableEq

/-- Result of the `sendMessage` handler. -/
inductive SendResult where
  | badRequest (error : String)
  | created (data : Message)
deriving DecidableEq

def SendResult.isErr : SendResult → Bool
  | .badRequest _ => true
  | .created _ => false

/-- Embedding of `sendMessage` (chat controller): validates that a message and
at least one sender id are present, then inserts a message row carrying the
sender_user_id when it is truthy, else the sender_student_id.  The handler
performs no read of the target ticket. -/
def sendMessage (st : Store) (ticketId newId : String) (now : Nat) (r : SendReq) :
    SendResult × Store :=
  if (!truthy r.sender_user_id && !truthy r.sender_student_id) || !truthy r.message then
    (.badRequest "Either sender_user_id or sender_student_id, and a message are required", st)
  else
    let payload : Message :=
      { id := newId
        ticket_id := ticketId
        message := r.message.getD ""
        sender_user_id := if truthy r.sender_user_id then r.sender_user_id else none
        sender_student_id := if truthy r.sender_user_id then none else r.sender_student_id
        created_at := now }
    (.created payload, { st with messages := st.messages ++ [payload] })

/-- The PostgREST embed `sender_user:users(username)`: the user row referenced
by the message's `sender_user_id`, if any. -/
def joinedSenderUser (st : Store) (m : Message) : Option UserAcct :=
  m.sender_user_id.bind (fun i => st.users.find? (fun u => u.id == i))

/-- The PostgREST embed `sender_student:students(name)`. -/
def joinedSenderStudent (st : Store) (m : Message) : Option Student :=
  m.sender_student_id.bind (fun i => st.students.find? (fun s => s.id == i))

/-- The sender_name resolution of `getMessages`: the joined user username if
present, else the joined student name if present, else the empty string. -/
def resolveSenderName (st : Store) (m : Message) : String :=
  match joinedSenderUser st m with
  | some u => u.username
  | none =>
    match joinedSenderStudent st m with
    | some s => s.name
    | none => ""

/-- A message as returned by `getMessages`: the raw relational embeds are
deleted and a `sender_name` field is added. -/
structure MsgOut where
  id : String
  ticket_id : String
  message : String
  sender_user_id : Option String
  sender_student_id : Option String
  created_at : Nat
  sender_name : String
deriving DecidableEq

/-- Forgetting the annotation of a `MsgOut` recovers the stored row. -/
def MsgOut.toMessage (o : MsgOut) : Message :=
  { id := o.id
    ticket_id := o.ticket_id
    message := o.message
    sender_user_id := o.sender_user_id
    sender_student_id := o.sender_student_id
    created_at := o.created_at }

/-- The rows of the `messages` table belonging to one ticket. -/
def ticketMessages (st : Store) (ticketId : String) : List Message :=
  st.messages.filter (fun m => m.ticket_id == ticketId)

/-- The ascending created_at ordering that `getMessages` requests. -/
def msgLe (a b : Message) : Prop := a.created_at ≤ b.created_at

instance : DecidableRel msgLe := fun a b => Nat.decLe a.created_at b.created_at

instance : IsTotal Message msgLe := ⟨fun a b => Nat.le_total a.created_at b.created_at⟩

instance : IsTrans Message msgLe := ⟨fun _ _ _ h h' => Nat.le_trans h h'⟩

/-- The per-message reshaping `getMessages` performs: the relational embeds
are dropped and the resolved `sender_name` is attached. -/
def annotateMsg (st : Store) (m : Message) : MsgOut :=
  { id := m.id
    ticket_id := m.ticket_id
    message := m.message
    sender_user_id := m.sender_user_id
    sender_student_id := m.sender_student_id
    created_at := m.created_at
    sender_name := resolveSenderName st m }

/-- Embedding of `getMessages`: the ticket's messages ordered by `created_at`
ascending, each mapped to the cleaned object annotated with `sender_name`. -/
def getMessages (st : Store) (ticketId : String) : List MsgOut :=
  (List.insertionSort msgLe (ticketMessages st ticketId)).map (annotateMsg st)

/-- Referential integrity of a message's sender references in a store: each
sender id that is set resolves through the corresponding join to a row whose
display name is non-empty. -/
def senderResolves (st : Store) (m : Message) : Bool :=
  (match m.sender_user_id with
   | some _ =>
     match joinedSenderUser st m with
     | some u => !(u.username == "")
     | none => false
   | none => true)
  && (match m.sender_student_id with
   | some _ =>
     match joinedSenderStudent st m with
     | some s => !(s.name == "")
     | none => false
   | none => true)

/-! ### Ticket management controller -/

/-- An error response produced via `handleSupabaseError`. -/
structure ErrResp where
  status : Nat
  error : String
deriving DecidableEq

/-- A storage-layer error as surfaced by the supabase client: either the
PostgREST "not a single row" code, or an error message (e.g. from a trigger). -/
inductive DbError where
  | pgrst116
  | failure (msg : String)
deriving DecidableEq

/-- Embedding of the centralized `handleSupabaseError`: PGRST116 maps to a
404 "Ticket not found"; a message containing `Assignee Error` maps to a 400
carrying the message; anything else maps to a generic 500. -/
def handleSupabaseError (e : DbError) (context : String) : ErrResp :=
  match e with
  | .pgrst116 => { status := 404, error := "Ticket not found" }
  | .failure m =>
    if containsSeq "Assignee Error".toList m.toList then
      { status := 400, error := m }
    else
      { status := 500, error := "Failed to " ++ context.toLower }

/-- The ordered effects a mutating handler performs. -/
inductive Ev where
  | storeWrite
  | auditWrite
  | respond (status : Nat)
deriving DecidableEq

/-- Modelled from the spec: the body of `logActivity` (required from
`./logActivity` by the ticket management controller) is not among the
provided sources.  Per the spec the activity log is a best-effort side
effect whose failure is swallowed: the call returns normally whether or not
the underlying audit write succeeds (`auditOk`). -/
def logActivity (_action _description _actor : String) (_auditOk : Bool) : Unit := ()

/-- Output of a mutating handler: its result, the store after it, and the
ordered effect trace. -/
structure HOut (ρ : Type) where
  res : ρ
  store : Store
  events : List Ev

/-- Body of `POST /tickets`. -/
structure CreateReq where
  title : Option String
  description : Option String
  student_id : Option String
  priority : Option String
  category : Option String
deriving DecidableEq

/-- Result of the `createTicket` handler. -/
inductive CreateResult where
  | badRequest (error : String)
  | created (ticket : Ticket)
deriving DecidableEq

/-- Embedding of `createTicket`: validates title/description/student_id
before any store access, then inserts a ticket with status `Open` and the
JS-defaulted priority (`Low`) and category (`General`), writes the audit
line, and responds 201 with the persisted row. -/
def createTicket (st : Store) (newId : String) (now : Nat) (auditOk : Bool)
    (r : CreateReq) : HOut CreateResult :=
  if !truthy r.title || !truthy r.description || !truthy r.student_id then
    { res := .badRequest "Title, description, and student creator are required"
      store := st
      events := [.respond 400] }
  else
    let ticket : Ticket :=
      { id := newId
        title := r.title.getD ""
        description := r.description.getD ""
        status := "Open"
        priority := orDefault r.priority "Low"
        category := orDefault r.category "General"
        student_id := r.student_id.getD ""
        assignee_id := none
        created_at := now
        updated_at := now }
    let _u : Unit := logActivity "Created" ("Ticket created by student") "system" auditOk
    { res := .created ticket
      store := { st with tickets := st.tickets ++ [ticket] }
      events := [.storeWrite, .auditWrite, .respond 201] }

/-- Query string of `GET /tickets`. -/
structure ListQuery where
  status : Option String
  search : Option String
  page : Option Nat
  limit : Option Nat
deriving DecidableEq

/-- Body of the 200 response of `getAllTickets`. -/
structure ListResponse where
  items : List Ticket
  total : Nat
  page : Nat
  limit : Nat
deriving DecidableEq

/-- The status filter of `getAllTickets`: applied unless the status query
parameter is absent, empty, or the sentinel `All`. -/
def statusMatches (q : ListQuery) (t : Ticket) : Bool :=
  if truthy q.status && !(q.status.getD "" == "All") then
    t.status == q.status.getD ""
  else
    true

/-- The search filter of `getAllTickets`: a case-insensitive substring match
against title OR description, applied only when a search term is present. -/
def searchMatches (q : ListQuery) (t : Ticket) : Bool :=
  if truthy q.search then
    containsCI t.title (q.search.getD "") || containsCI t.description (q.search.getD "")
  else
    true

/-- A ticket matched by the combined filters of `getAllTickets`. -/
def matchesQuery (q : ListQuery) (t : Ticket) : Bool :=
  statusMatches q t && searchMatches q t

/-- The descending created_at ordering that `getAllTickets` requests. -/
def ticketGe (a b : Ticket) : Prop := b.created_at ≤ a.created_at

instance : DecidableRel ticketGe := fun a b => Nat.decLe b.created_at a.created_at

instance : IsTotal Ticket ticketGe := ⟨fun a b => (Nat.le_total b.created_at a.created_at)⟩

instance : IsTrans Ticket ticketGe := ⟨fun _ _ _ h h' => Nat.le_trans h' h⟩

/-- Embedding of `getAllTickets`: filter by status and search, count the
matches exactly, order by `created_at` descending, and return the window
`range(offset, offset + limit - 1)` with `offset = (page-1)*limit`,
defaulting `page = 1` and `limit = 15`. -/
def getAllTickets (st : Store) (q : ListQuery) : ListResponse :=
  let page := q.page.getD 1
  let lim := q.limit.getD 15
  let offset := (page - 1) * lim
  let matching := st.tickets.filter (matchesQuery q)
  let sorted := List.insertionSort ticketGe matching
  { items := (sorted.drop offset).take lim
    total := matching.length
    page := page
    limit := lim }

/-- Body of `PATCH /tickets/:id`.  The outer `Option` distinguishes an absent
key (`none`, JS `undefined`) from a present one; for `assignee_id` the inner
`Option` distinguishes JSON `null` (`none`) from a string id. -/
structure UpdateReq where
  assignee_id : Option (Option String)
  status : Option String
deriving DecidableEq

/-- Result of the `updateTicket` handler. -/
inductive UpdateResult where
  | badRequest (error : String)
  | storeFail (e : ErrResp)
  | updated (ticket : Ticket)
deriving DecidableEq

/-- The HTTP status of a storage-layer failure result, if any. -/
def UpdateResult.failStatus : UpdateResult → Option Nat
  | .storeFail e => some e.status
  | _ => none

/-- Modelled from the spec: the storage layer's assignee integrity rule (a
database trigger whose SQL is not among the provided sources; only its error
string is handled in `handleSupabaseError`) rejects an update that sets a
non-null assignee that is not an existing staff account. -/
def assigneeTriggerRejects (st : Store) (a : Option (Option String)) : Bool :=
  match a with
  | some (some aid) => !(st.users.any (fun u => u.id == aid))
  | _ => false

/-- Embedding of `updateTicket`: builds the patch payload (assignee_id when
the key is present, status when truthy), rejects an empty payload with 400,
then performs the store update — a missing row surfaces as PGRST116 → 404,
an assignee-integrity rejection surfaces through `handleSupabaseError` as a
400 — sets `updated_at` to the current time, writes the audit line, and
responds 200 with the updated row. -/
def updateTicket (st : Store) (id : String) (now : Nat) (auditOk : Bool)
    (r : UpdateReq) : HOut UpdateResult :=
  let assigneeSupplied := r.assignee_id.isSome
  let statusSupplied := truthy r.status
  if !assigneeSupplied && !statusSupplied then
    { res := .badRequest "No fields to update provided.", store := st, events := [.respond 400] }
  else
    match st.tickets.find? (fun t => t.id == id) with
    | none =>
      { res := .storeFail (handleSupabaseError .pgrst116 ("updating ticket " ++ id))
        store := st
        events := [.storeWrite, .respond 404] }
    | some t =>
      if assigneeTriggerRejects st r.assignee_id then
        { res := .storeFail (handleSupabaseError
            (.failure "Assignee Error: assignee must be an existing staff account")
            ("updating ticket " ++ id))
          store := st
          events := [.storeWrite, .respond 400] }
      else
        let t' : Ticket :=
          { t with
            assignee_id := match r.assignee_id with
              | some v => v
              | none => t.assignee_id
            status := if statusSupplied then r.status.getD "" else t.status
            updated_at := now }
        let _u : Unit := logActivity "Updated" ("Ticket was updated.") "system" auditOk
        { res := .updated t'
          store := { st with tickets := st.tickets.map (fun u => if u.id == id then t' else u) }
          events := [.storeWrite, .auditWrite, .respond 200] }

/-- Result of the `deleteTicket` handler. -/
inductive DeleteResult where
  | storeFail (e : ErrResp)
  | noContent
deriving DecidableEq

/-- Embedding of `deleteTicket`: deleting a missing row surfaces as PGRST116
→ 404; otherwise the row is removed, the audit line written, and the handler
responds 204 with no body. -/
def deleteTicket (st : Store) (id : String) (auditOk : Bool) : HOut DeleteResult :=
  match st.tickets.find? (fun t => t.id == id) with
  | none =>
    { res := .storeFail (handleSupabaseError .pgrst116 ("deleting ticket " ++ id))
      store := st
      events := [.storeWrite, .respond 404] }
  | some _ =>
    let _u : Unit := logActivity "Deleted" ("Ticket was deleted.") "system" auditOk
    { res := .noContent
      store := { st with tickets := st.tickets.filter (fun t => !(t.id == id)) }
      events := [.storeWrite, .auditWrite, .respond 204] }

/-- Result of the reopen action. -/
inductive ReopenResult where
  | notFound
  | conflict (error : String)
  | reopened (ticket : Ticket)
deriving DecidableEq

/-- Modelled from the spec: the backend handler of `POST /tickets/:id/reopen`
is not among the provided sources (the ticket router registers no reopen
route; only the client caller `reopenTicketApi` exists).  Per the spec,
reopening is allowed only when the ticket's current status is `Resolved`, in
which case the status transitions to `Open`; invoking it on a ticket in any
other state fails with a Conflict/guard error. -/
def reopenTicket (st : Store) (id : String) (now : Nat) : ReopenResult × Store :=
  match st.tickets.find? (fun t => t.id == id) with
  | none => (.notFound, st)
  | some t =>
    if t.status == "Resolved" then
      let t' : Ticket := { t with status := "Open", updated_at := now }
      (.reopened t', { st with tickets := st.tickets.map (fun u => if u.id == id then t' else u) })
    else
      (.conflict "Only resolved tickets can be reopened", st)

/-- Holds when the trace contains an audit write and the first response is
emitted only after it: the response is blocked on audit-log completion. -/
def auditBeforeRespond : List Ev → Bool
  | [] => false
  | .auditWrite :: rest => rest.any (fun e => match e with | .respond _ => true | _ => false)
  | .respond _ :: _ => false
  | .storeWrite :: rest => auditBeforeRespond rest

/-! ### Test fixtures -/

def emptyStore : Store := { tickets := [], messages := [], users := [], students := [] }

def resolvedTicket : Ticket :=
  { id := "t1", title := "Wifi down", description := "Cannot connect", status := "Resolved",
    priority := "Low", category := "General", student_id := "s1", assignee_id := none,
    created_at := 1, updated_at := 2 }

def storeResolved : Store :=
  { tickets := [resolvedTicket], messages := [], users := [], students := [] }

def chatStore : Store :=
  { tickets := []
    messages :=
      [ { id := "m2", ticket_id := "t1", message := "We are on it", sender_user_id := some "u1",
          sender_student_id := none, created_at := 9 },
        { id := "m1", ticket_id := "t1", message := "Wifi is down", sender_user_id := none,
          sender_student_id := some "s1", created_at := 4 } ]
    users := [{ id := "u1", username := "admin" }]
    students := [{ id := "s1", name := "Asha" }] }

def adminUser : UserAcct := { id := "u1", username := "admin" }

def openTicket : Ticket :=
  { id := "t2", title := "Projector broken", description := "Lab 3 projector", status := "Open",
    priority := "Medium", category := "Infrastructure", student_id := "s1",
    assignee_id := none, created_at := 3, updated_at := 3 }

def storeOpen : Store :=
  { tickets := [openTicket], messages := [], users := [adminUser], students := [] }

/-! ### Helper lemmas -/

theorem isSome_of_truthy {o : Option String} (h : truthy o = true) : o.isSome = true := by
  cases o with
  | none => simp [truthy] at h
  | some s => rfl

/-- The function `containsSeq` decides the contiguous-subsequence relation. -/
theorem containsSeq_iff (n : List Char) :
    ∀ hay : List Char, containsSeq n hay = true ↔ List.IsInfix n hay := by
  intro hay
  induction hay with
  | nil =>
    simp [containsSeq, List.isPrefixOf_iff_prefix, List.infix_nil, List.prefix_nil]
  | cons c t ih =>
    simp [containsSeq, List.isPrefixOf_iff_prefix, ih, List.infix_cons_iff]

/-! ### C1 -/

/-- C1 (counterexample): the chat `sendMessage` handler consults neither the
target ticket's status nor the exclusivity of the two sender ids.  On a store
whose only ticket `t1` is `Resolved`, a send to `t1` carrying BOTH sender ids
and a non-empty message succeeds (201 with the row persisted, keeping only
the `sender_user_id`), whereas the claim requires this call to fail. -/
theorem sendMessage_resolved_both_ids_succeeds :
    (storeResolved.tickets.find? (fun t => t.id == "t1")).map Ticket.status = some "Resolved"
    ∧ (sendMessage storeResolved "t1" "m1" 5
        { sender_user_id := some "u1", sender_student_id := some "s1", message := some "hello" }).1
      = SendResult.created
          { id := "m1", ticket_id := "t1", message := "hello",
            sender_user_id := some "u1", sender_student_id := none, created_at := 5 } :=
  ⟨rfl, rfl⟩

/-- C1 (amended): Send fails iff the message text is empty/absent or both
sender ids are absent/empty; the target ticket's status is never consulted
and a request carrying both sender ids succeeds; on success exactly one
sender reference (preferring `sender_user_id`) is persisted with the
message, which is appended to the message store. -/
theorem sendMessage_validation (st : Store) (tid mid : String) (now : Nat) (r : SendReq) :
    ((sendMessage st tid mid now r).1.isErr = true ↔
      (truthy r.message = false ∨
        (truthy r.sender_user_id = false ∧ truthy r.sender_student_id = false)))
    ∧ (∀ m, (sendMessage st tid mid now r).1 = SendResult.created m →
        exactlyOneSender m = true
        ∧ m.message = r.message.getD ""
        ∧ (truthy r.sender_user_id = true → m.sender_user_id = r.sender_user_id)
        ∧ (truthy r.sender_user_id = false → m.sender_student_id = r.sender_student_id)
        ∧ (sendMessage st tid mid now r).2.messages = st.messages ++ [m]
        ∧ (sendMessage st tid mid now r).2.tickets = st.tickets) := by
  constructor
  · cases hu : truthy r.sender_user_id <;> cases hs : truthy r.sender_student_id <;>
      cases hm : truthy r.message <;>
      simp [sendMessage, hu, hs, hm, SendResult.isErr]
  · intro m hmk
    cases hu : truthy r.sender_user_id <;> cases hs : truthy r.sender_student_id <;>
        cases hm : truthy r.message <;>
        simp [sendMessage, hu, hs, hm] at hmk <;>
        subst hmk <;>
        simp [sendMessage, hu, hs, hm, exactlyOneSender] <;>
        first
          | exact isSome_of_truthy hu
          | exact isSome_of_truthy hs

/-- Witness for C1 (amended) at a concrete student send. -/
theorem sendMessage_validation_witness :
    exactlyOneSender
        { id := "m1", ticket_id := "t1", message := "hi",
          sender_user_id := none, sender_student_id := some "s1", created_at := 5 } = true
      ∧ ({ id := "m1", ticket_id := "t1", message := "hi",
           sender_user_id := none, sender_student_id := some "s1", created_at := 5 } : Message).message
          = (some "hi").getD ""
      ∧ (truthy (none : Option String) = true →
          ({ id := "m1", ticket_id := "t1", message := "hi",
             sender_user_id := none, sender_student_id := some "s1", created_at := 5 } : Message).sender_user_id
            = none)
      ∧ (truthy (none : Option String) = false →
          ({ id := "m1", ticket_id := "t1", message := "hi",
             sender_user_id := none, sender_student_id := some "s1", created_at := 5 } : Message).sender_student_id
            = some "s1")
      ∧ (sendMessage emptyStore "t1" "m1" 5
          { sender_user_id := none, sender_student_id := some "s1", message := some "hi" }).2.messages
        = emptyStore.messages ++
            [{ id := "m1", ticket_id := "t1", message := "hi",
               sender_user_id := none, sender_student_id := some "s1", created_at := 5 }]
      ∧ (sendMessage emptyStore "t1" "m1" 5
          { sender_user_id := none, sender_student_id := some "s1", message := some "hi" }).2.tickets
        = emptyStore.tickets :=
  (sendMessage_validation emptyStore "t1" "m1" 5
    { sender_user_id := none, sender_student_id := some "s1", message := some "hi" }).2 _ rfl

/-! ### C2 -/

/-- C2: Reopen(id) succeeds iff the ticket's current status is Resolved, in
which case the status transitions to Open; invoking Reopen on a ticket in
any other state (Open or In Progress) fails with a Conflict/guard error and
leaves the store unchanged. -/
theorem reopenTicket_iff_resolved (st : Store) (id : String) (now : Nat) (t : Ticket)
    (hfind : st.tickets.find? (fun u => u.id == id) = some t) :
    ((∃ t', (reopenTicket st id now).1 = .reopened t' ∧ t'.status = "Open") ↔
      t.status = "Resolved")
    ∧ (t.status ≠ "Resolved" →
        (reopenTicket st id now).1 = .conflict "Only resolved tickets can be reopened"
        ∧ (reopenTicket st id now).2 = st) := by
  by_cases h : t.status = "Resolved" <;>
    simp [reopenTicket, hfind, h]

/-- Witness for C2: reopening the Resolved fixture ticket yields status Open;
reopening it again (now Open) is rejected with the guard error. -/
theorem reopenTicket_iff_resolved_witness :
    (∃ t', (reopenTicket storeResolved "t1" 7).1 = .reopened t' ∧ t'.status = "Open")
    ∧ ((reopenTicket (reopenTicket storeResolved "t1" 7).2 "t1" 9).1
        = .conflict "Only resolved tickets can be reopened"
      ∧ (reopenTicket (reopenTicket storeResolved "t1" 7).2 "t1" 9).2
        = (reopenTicket storeResolved "t1" 7).2) :=
  ⟨(reopenTicket_iff_resolved storeResolved "t1" 7 resolvedTicket rfl).1.mpr rfl,
   (reopenTicket_iff_resolved (reopenTicket storeResolved "t1" 7).2 "t1" 9
      { resolvedTicket with status := "Open", updated_at := 7 } rfl).2 (by decide)⟩

/-! ### C3 -/

/-- C3: Create fails with ValidationError (400) iff title, description, or
student_id is empty/absent; on failure the store is untouched and no store
write happens (validation precedes any store access); on success the
returned ticket has status Open, the specified priority/category (defaulting
to Low and General respectively), and is appended to the ticket store. -/
theorem createTicket_spec (st : Store) (nid : String) (now : Nat) (ok : Bool)
    (r : CreateReq) :
    ((∃ e, (createTicket st nid now ok r).res = .badRequest e) ↔
      (truthy r.title = false ∨ truthy r.description = false ∨ truthy r.student_id = false))
    ∧ ((truthy r.title = false ∨ truthy r.description = false ∨ truthy r.student_id = false) →
        (createTicket st nid now ok r).store = st
        ∧ Ev.storeWrite ∉ (createTicket st nid now ok r).events)
    ∧ (∀ t, (createTicket st nid now ok r).res = .created t →
        t.status = "Open"
        ∧ (∀ p, r.priority = some p → p ≠ "" → t.priority = p)
        ∧ ((r.priority = none ∨ r.priority = some "") → t.priority = "Low")
        ∧ (∀ c, r.category = some c → c ≠ "" → t.category = c)
        ∧ ((r.category = none ∨ r.category = some "") → t.category = "General")
        ∧ (createTicket st nid now ok r).store.tickets = st.tickets ++ [t]) := by
  refine ⟨?_, ?_, ?_⟩
  · cases ht : truthy r.title <;> cases hd : truthy r.description <;>
      cases hs : truthy r.student_id <;>
      simp [createTicket, ht, hd, hs]
  · intro h
    rcases h with h | h | h <;> simp [createTicket, h]
  · intro t hmk
    cases ht : truthy r.title <;> cases hd : truthy r.description <;>
        cases hs : truthy r.student_id <;>
        simp [createTicket, ht, hd, hs] at hmk
    subst hmk
    refine ⟨rfl, ?_, ?_, ?_, ?_, by simp [createTicket, ht, hd, hs]⟩
    · intro p hp hne
      simp [orDefault, hp, hne]
    · rintro (h | h) <;> simp [orDefault, h]
    · intro c hc hne
      simp [orDefault, hc, hne]
    · rintro (h | h) <;> simp [orDefault, h]

/-- Witness for C3 at a concrete valid create request. -/
theorem createTicket_spec_witness :
    (createTicket emptyStore "t9" 3 true
        { title := some "Wifi down", description := some "No wifi", student_id := some "S1",
          priority := none, category := some "Infrastructure" }).store.tickets
      = emptyStore.tickets ++
          [{ id := "t9", title := "Wifi down", description := "No wifi", status := "Open",
             priority := "Low", category := "Infrastructure", student_id := "S1",
             assignee_id := none, created_at := 3, updated_at := 3 }]
    ∧ ({ id := "t9", title := "Wifi down", description := "No wifi", status := "Open",
         priority := "Low", category := "Infrastructure", student_id := "S1",
         assignee_id := none, created_at := 3, updated_at := 3 } : Ticket).status = "Open"
    ∧ ({ id := "t9", title := "Wifi down", description := "No wifi", status := "Open",
         priority := "Low", category := "Infrastructure", student_id := "S1",
         assignee_id := none, created_at := 3, updated_at := 3 } : Ticket).priority = "Low"
    ∧ ({ id := "t9", title := "Wifi down", description := "No wifi", status := "Open",
         priority := "Low", category := "Infrastructure", student_id := "S1",
         assignee_id := none, created_at := 3, updated_at := 3 } : Ticket).category
        = "Infrastructure" := by
  have h := (createTicket_spec emptyStore "t9" 3 true
    { title := some "Wifi down", description := some "No wifi", student_id := some "S1",
      priority := none, category := some "Infrastructure" }).2.2
    { id := "t9", title := "Wifi down", description := "No wifi", status := "Open",
      priority := "Low", category := "Infrastructure", student_id := "S1",
      assignee_id := none, created_at := 3, updated_at := 3 } rfl
  exact ⟨h.2.2.2.2.2, h.1, h.2.2.1 (Or.inl rfl), h.2.2.2.1 "Infrastructure" rfl (by decide)⟩

/-! ### C4 -/

/-- C4 (counterexample): on a successful create, the handler's effect trace
is store write, then audit-log write, then the 201 response: the response is
emitted only after the audit-log call completes, i.e. the handler awaits
audit-log completion before responding, contrary to the claim that the
response is not blocked on it.  (updateTicket and deleteTicket share this
shape: the audit write precedes the response.) -/
theorem createTicket_blocks_on_audit :
    (createTicket emptyStore "t9" 1 true
        { title := some "Wifi down", description := some "Cannot connect",
          student_id := some "S1", priority := none, category := none }).events
      = [Ev.storeWrite, Ev.auditWrite, Ev.respond 201]
    ∧ auditBeforeRespond (createTicket emptyStore "t9" 1 true
        { title := some "Wifi down", description := some "Cannot connect",
          student_id := some "S1", priority := none, category := none }).events = true :=
  ⟨rfl, rfl⟩

/-- C4 (amended): for every Create/Update/Delete, a failure of the
activity-log write does not fail the primary operation — the audit errors
are swallowed inside logActivity, so the handler's result, resulting store,
and effect trace are identical whether the audit write succeeds or fails —
but the handler does await the audit-log call before responding. -/
theorem mutations_independent_of_audit (st : Store) (nid id : String) (now : Nat)
    (rc : CreateReq) (ru : UpdateReq) :
    createTicket st nid now true rc = createTicket st nid now false rc
    ∧ updateTicket st id now true ru = updateTicket st id now false ru
    ∧ deleteTicket st id true = deleteTicket st id false :=
  ⟨rfl, rfl, rfl⟩

/-! ### C5 -/

/-- C5: on a store whose messages each carry exactly one sender reference
resolving to a row with a non-empty display name, ListByTicket returns all
the ticket's messages (and nothing else) ordered by `created_at` ascending,
each carrying exactly one sender id and a non-empty `sender_name` equal to
the referenced staff account's username when `sender_user_id` is set, else
the referenced student's name; the relational sender embeds are stripped
(the returned objects consist of the message row's fields plus
`sender_name` only). -/
theorem getMessages_spec (st : Store) (tid : String)
    (hint : ∀ m ∈ st.messages, exactlyOneSender m = true ∧ senderResolves st m = true) :
    List.Perm ((getMessages st tid).map MsgOut.toMessage) (ticketMessages st tid)
    ∧ List.Pairwise (fun a b : MsgOut => a.created_at ≤ b.created_at) (getMessages st tid)
    ∧ ∀ o ∈ getMessages st tid,
        o.ticket_id = tid
        ∧ (o.sender_user_id.isSome != o.sender_student_id.isSome) = true
        ∧ o.sender_name ≠ ""
        ∧ (∀ uid, o.sender_user_id = some uid →
            ∃ u, u ∈ st.users ∧ u.id = uid ∧ o.sender_name = u.username)
        ∧ (o.sender_user_id = none → ∀ sid, o.sender_student_id = some sid →
            ∃ s, s ∈ st.students ∧ s.id = sid ∧ o.sender_name = s.name) := by
  have hback : ∀ m : Message, (annotateMsg st m).toMessage = m := fun m => rfl
  refine ⟨?_, ?_, ?_⟩
  · have h1 : (getMessages st tid).map MsgOut.toMessage
        = List.insertionSort msgLe (ticketMessages st tid) := by
      simp only [getMessages, List.map_map]
      have hco : MsgOut.toMessage ∘ annotateMsg st = id := funext fun m => hback m
      rw [hco, List.map_id]
    rw [h1]
    exact List.perm_insertionSort msgLe _
  · exact List.Pairwise.map (annotateMsg st) (fun a b h => h)
      (List.sorted_insertionSort msgLe (ticketMessages st tid))
  · intro o ho
    simp only [getMessages, List.mem_map] at ho
    obtain ⟨m, hm, rfl⟩ := ho
    simp only [List.mem_insertionSort, ticketMessages, List.mem_filter] at hm
    obtain ⟨hmem, htid⟩ := hm
    obtain ⟨hxor, hres⟩ := hint m hmem
    refine ⟨by simpa [annotateMsg] using htid, ?_, ?_, ?_, ?_⟩
    · simpa [annotateMsg, exactlyOneSender] using hxor
    · cases hu : m.sender_user_id with
      | some uid =>
        have hsnone : m.sender_student_id = none := by
          cases h2 : m.sender_student_id with
          | none => rfl
          | some x => simp [exactlyOneSender, hu, h2] at hxor
        cases hju : joinedSenderUser st m with
        | some u =>
          simp [annotateMsg, resolveSenderName, hju]
          simpa [senderResolves, hu, hju, hsnone] using hres
        | none => simp [senderResolves, hu, hju] at hres
      | none =>
        have hsome : m.sender_student_id.isSome = true := by
          simpa [exactlyOneSender, hu] using hxor
        cases hs : m.sender_student_id with
        | some sid =>
          cases hjs : joinedSenderStudent st m with
          | some s =>
            have hju : joinedSenderUser st m = none := by simp [joinedSenderUser, hu]
            simp [annotateMsg, resolveSenderName, hju, hjs]
            simpa [senderResolves, hu, hs, hjs] using hres
          | none => simp [senderResolves, hu, hs, hjs] at hres
        | none => simp [hs] at hsome
    · intro uid huid
      have hu : m.sender_user_id = some uid := by simpa [annotateMsg] using huid
      cases hju : joinedSenderUser st m with
      | some u =>
        have hfind : st.users.find? (fun x => x.id == uid) = some u := by
          simpa [joinedSenderUser, hu] using hju
        refine ⟨u, List.mem_of_find?_eq_some hfind, ?_, ?_⟩
        · have := List.find?_some hfind
          simpa using this
        · simp [annotateMsg, resolveSenderName, hju]
      | none => simp [senderResolves, hu, hju] at hres
    · intro hu0 sid hsid
      have hu : m.sender_user_id = none := by simpa [annotateMsg] using hu0
      have hs : m.sender_student_id = some sid := by simpa [annotateMsg] using hsid
      have hju : joinedSenderUser st m = none := by simp [joinedSenderUser, hu]
      cases hjs : joinedSenderStudent st m with
      | some s =>
        have hfind : st.students.find? (fun x => x.id == sid) = some s := by
          simpa [joinedSenderStudent, hs] using hjs
        refine ⟨s, List.mem_of_find?_eq_some hfind, ?_, ?_⟩
        · have := List.find?_some hfind
          simpa using this
        · simp [annotateMsg, resolveSenderName, hju, hjs]
      | none => simp [senderResolves, hs, hjs] at hres

/-- Witness for C5 on a concrete two-message thread. -/
theorem getMessages_spec_witness :
    List.Pairwise (fun a b : MsgOut => a.created_at ≤ b.created_at) (getMessages chatStore "t1")
    ∧ List.Perm ((getMessages chatStore "t1").map MsgOut.toMessage)
        (ticketMessages chatStore "t1") :=
  ⟨(getMessages_spec chatStore "t1" (by decide)).2.1,
   (getMessages_spec chatStore "t1" (by decide)).1⟩


/-! ### C6 -/

/-- C6: Update with neither field supplied (no assignee_id key, status not
truthy) fails with the "no fields to update" ValidationError and performs no
store write; when at least one field is supplied (and the assignee integrity
rule does not reject), the update succeeds, and on every successful update
only the supplied fields change — every other field of the ticket is
unchanged — while updated_at is set to the current time; tickets with a
different id are untouched. -/
theorem updateTicket_frame (st : Store) (id : String) (now : Nat) (ok : Bool)
    (r : UpdateReq) (t : Ticket)
    (hfind : st.tickets.find? (fun u => u.id == id) = some t) :
    (r.assignee_id = none ∧ truthy r.status = false →
      (updateTicket st id now ok r).res = .badRequest "No fields to update provided."
      ∧ (updateTicket st id now ok r).store = st
      ∧ Ev.storeWrite ∉ (updateTicket st id now ok r).events)
    ∧ (¬(r.assignee_id = none ∧ truthy r.status = false) →
        assigneeTriggerRejects st r.assignee_id = false →
        ∃ t', (updateTicket st id now ok r).res = .updated t')
    ∧ (∀ t', (updateTicket st id now ok r).res = .updated t' →
        t'.updated_at = now
        ∧ t'.id = t.id ∧ t'.title = t.title ∧ t'.description = t.description
        ∧ t'.priority = t.priority ∧ t'.category = t.category
        ∧ t'.student_id = t.student_id ∧ t'.created_at = t.created_at
        ∧ (∀ v, r.assignee_id = some v → t'.assignee_id = v)
        ∧ (r.assignee_id = none → t'.assignee_id = t.assignee_id)
        ∧ (∀ s, r.status = some s → s ≠ "" → t'.status = s)
        ∧ (truthy r.status = false → t'.status = t.status)
        ∧ (∀ u ∈ st.tickets, u.id ≠ id →
            u ∈ (updateTicket st id now ok r).store.tickets)) := by
  refine ⟨?_, ?_, ?_⟩
  · rintro ⟨ha, hs⟩
    simp [updateTicket, ha, hs]
  · intro hne hrej
    simp [updateTicket, hne, hfind, hrej]
  · intro t' ht'
    by_cases hempty : r.assignee_id = none ∧ truthy r.status = false
    · simp [updateTicket, hempty.1, hempty.2] at ht'
    · cases hrej : assigneeTriggerRejects st r.assignee_id with
      | true => simp [updateTicket, hempty, hfind, hrej] at ht'
      | false =>
        simp [updateTicket, hempty, hfind, hrej] at ht'
        subst ht'
        refine ⟨rfl, rfl, rfl, rfl, rfl, rfl, rfl, rfl, ?_, ?_, ?_, ?_, ?_⟩
        · intro v hv
          simp [hv]
        · intro hv
          simp [hv]
        · intro s hsv hne
          have hst : truthy (some s) = true := by simp [truthy, hne]
          simp [hsv, hst]
        · intro hs
          simp [hs]
        · intro u hu hne
          simp [updateTicket, hempty, hfind, hrej, List.mem_map]
          exact ⟨u, hu, by simp [hne]⟩

/-- Witness for C6: a concrete update supplying both fields on an existing
ticket succeeds and preserves the unsupplied fields. -/
theorem updateTicket_frame_witness :
    ({ openTicket with
        assignee_id := some "u1", status := "In Progress", updated_at := 9 } : Ticket).updated_at
      = 9
    ∧ ({ openTicket with
          assignee_id := some "u1", status := "In Progress", updated_at := 9 } : Ticket).priority
      = openTicket.priority
    ∧ ({ openTicket with
          assignee_id := some "u1", status := "In Progress", updated_at := 9 } : Ticket).title
      = openTicket.title := by
  have h := (updateTicket_frame storeOpen "t2" 9 true
    { assignee_id := some (some "u1"), status := some "In Progress" } openTicket rfl).2.2
    { openTicket with assignee_id := some "u1", status := "In Progress", updated_at := 9 } rfl
  exact ⟨h.1, h.2.2.2.2.1, h.2.2.1⟩

/-! ### C7 -/

/-- C7: Update on a nonexistent ticket id fails with NotFound (404, "Ticket
not found"); an update rejected by the storage layer's assignee integrity
rule is surfaced through the centralized error handler as a 400-class client
error (carrying the Assignee Error message), not as a generic 500. -/
theorem updateTicket_errors (st : Store) (id : String) (now : Nat) (ok : Bool)
    (r : UpdateReq) (hsupplied : ¬(r.assignee_id = none ∧ truthy r.status = false)) :
    (st.tickets.find? (fun u => u.id == id) = none →
      (updateTicket st id now ok r).res
        = .storeFail { status := 404, error := "Ticket not found" })
    ∧ (∀ t, st.tickets.find? (fun u => u.id == id) = some t →
        assigneeTriggerRejects st r.assignee_id = true →
        (updateTicket st id now ok r).res.failStatus = some 400) := by
  constructor
  · intro hfind
    simp [updateTicket, hsupplied, hfind, handleSupabaseError]
  · intro t hfind hrej
    have hres : (updateTicket st id now ok r).res
        = .storeFail (handleSupabaseError
            (.failure "Assignee Error: assignee must be an existing staff account")
            ("updating ticket " ++ id)) := by
      simp [updateTicket, hsupplied, hfind, hrej]
    rw [hres]
    rfl

/-- Witness for C7: updating a missing id yields 404; a concrete update
whose assignee is not a staff account yields a 400-class failure. -/
theorem updateTicket_errors_witness :
    (updateTicket emptyStore "tX" 4 true
        { assignee_id := some (some "u1"), status := none }).res
      = UpdateResult.storeFail { status := 404, error := "Ticket not found" }
    ∧ (updateTicket storeOpen "t2" 4 true
        { assignee_id := some (some "ghost"), status := none }).res.failStatus = some 400 := by
  have h1 := (updateTicket_errors emptyStore "tX" 4 true
    { assignee_id := some (some "u1"), status := none } (by simp)).1 rfl
  have h2 := (updateTicket_errors storeOpen "t2" 4 true
    { assignee_id := some (some "ghost"), status := none } (by simp)).2 openTicket rfl
    (by decide)
  exact ⟨h1, h2⟩

/-! ### C8 -/

/-- C8: List applies an exact status match unless the status parameter is
absent/empty/"All", a case-insensitive substring search against title OR
description, offset pagination with offset = (page-1)×limit and defaults
page=1 and limit=15, orders results by created_at descending, returns at
most limit items, and returns a total equal to the number of matching
tickets, independent of the requested page. -/
theorem getAllTickets_spec (st : Store) (q : ListQuery) :
    (getAllTickets st q).items.length ≤ q.limit.getD 15
    ∧ (getAllTickets st q).page = q.page.getD 1
    ∧ (getAllTickets st q).limit = q.limit.getD 15
    ∧ (getAllTickets st q).total = (st.tickets.filter (matchesQuery q)).length
    ∧ (∀ p₁ p₂ : Option Nat,
        (getAllTickets st { q with page := p₁ }).total
          = (getAllTickets st { q with page := p₂ }).total)
    ∧ List.Pairwise (fun a b : Ticket => b.created_at ≤ a.created_at) (getAllTickets st q).items
    ∧ (∀ t ∈ (getAllTickets st q).items, matchesQuery q t = true)
    ∧ (∀ t : Ticket, ∀ s : String, q.status = some s → s ≠ "" → s ≠ "All" →
        matchesQuery q t = true → t.status = s)
    ∧ (∀ t : Ticket, ∀ w : String, q.search = some w → w ≠ "" →
        matchesQuery q t = true →
        (List.IsInfix (lowerChars w) (lowerChars t.title)
          ∨ List.IsInfix (lowerChars w) (lowerChars t.description)))
    ∧ (getAllTickets st q).items
        = ((List.insertionSort ticketGe (st.tickets.filter (matchesQuery q))).drop
            ((q.page.getD 1 - 1) * q.limit.getD 15)).take (q.limit.getD 15) := by
  refine ⟨?_, rfl, rfl, rfl, fun p₁ p₂ => rfl, ?_, ?_, ?_, ?_, rfl⟩
  · exact List.length_take_le _ _
  · exact List.Pairwise.sublist
      ((List.take_sublist _ _).trans (List.drop_sublist _ _))
      (List.sorted_insertionSort ticketGe (st.tickets.filter (matchesQuery q)))
  · intro t ht
    have h1 : t ∈ List.insertionSort ticketGe (st.tickets.filter (matchesQuery q)) :=
      List.mem_of_mem_drop (List.mem_of_mem_take ht)
    have h2 := (List.mem_insertionSort ticketGe).mp h1
    exact (List.mem_filter.mp h2).2
  · intro t s hqs hne hnall hmatch
    simp [matchesQuery, statusMatches, hqs, truthy, hne, hnall] at hmatch
    exact hmatch.1
  · intro t w hqw hne hmatch
    simp [matchesQuery, searchMatches, hqw, truthy, hne, containsCI] at hmatch
    rcases hmatch.2 with h | h
    · exact Or.inl ((containsSeq_iff _ _).mp h)
    · exact Or.inr ((containsSeq_iff _ _).mp h)

/-- Witness for C8 on the Resolved fixture: the matching characterizations
hold at a concrete query and the page is bounded by the default limit. -/
theorem getAllTickets_spec_witness :
    (getAllTickets storeResolved
        { status := some "Resolved", search := some "wifi",
          page := none, limit := none }).items.length ≤ 15
    ∧ resolvedTicket.status = "Resolved"
    ∧ (List.IsInfix (lowerChars "wifi") (lowerChars resolvedTicket.title)
        ∨ List.IsInfix (lowerChars "wifi") (lowerChars resolvedTicket.description)) := by
  have h := getAllTickets_spec storeResolved
    { status := some "Resolved", search := some "wifi", page := none, limit := none }
  refine ⟨h.1, ?_, ?_⟩
  · exact h.2.2.2.2.2.2.2.1 resolvedTicket "Resolved" rfl (by decide) (by decide) (by decide)
  · exact h.2.2.2.2.2.2.2.2.1 resolvedTicket "wifi" rfl (by decide) (by decide)

/-! ### C9 -/

/-- C9: Delete on an existing ticket removes it (every remaining ticket has
a different id; tickets with other ids survive) and returns the empty 204
success; Delete on an absent id — in particular a second Delete of the same
id — fails with NotFound (404), not success. -/
theorem deleteTicket_spec (st : Store) (id : String) (ok : Bool) :
    (∀ t, st.tickets.find? (fun u => u.id == id) = some t →
      (deleteTicket st id ok).res = .noContent
      ∧ (∀ u ∈ (deleteTicket st id ok).store.tickets, u.id ≠ id)
      ∧ (∀ u ∈ st.tickets, u.id ≠ id → u ∈ (deleteTicket st id ok).store.tickets)
      ∧ (deleteTicket (deleteTicket st id ok).store id ok).res
          = .storeFail { status := 404, error := "Ticket not found" })
    ∧ (st.tickets.find? (fun u => u.id == id) = none →
      (deleteTicket st id ok).res = .storeFail { status := 404, error := "Ticket not found" }
      ∧ (deleteTicket st id ok).store = st) := by
  constructor
  · intro t hfind
    have hstore : (deleteTicket st id ok).store.tickets
        = st.tickets.filter (fun u => !(u.id == id)) := by
      simp [deleteTicket, hfind]
    refine ⟨by simp [deleteTicket, hfind], ?_, ?_, ?_⟩
    · intro u hu
      rw [hstore] at hu
      simpa using (List.mem_filter.mp hu).2
    · intro u hu hne
      rw [hstore]
      exact List.mem_filter.mpr ⟨hu, by simpa using hne⟩
    · have hnone : (st.tickets.filter (fun u => !(u.id == id))).find? (fun u => u.id == id)
          = none := by
        refine List.find?_eq_none.mpr ?_
        intro x hx
        simpa using (List.mem_filter.mp hx).2
      have hst2 : (deleteTicket st id ok).store
          = { st with tickets := st.tickets.filter (fun u => !(u.id == id)) } := by
        simp [deleteTicket, hfind]
      rw [hst2]
      simp [deleteTicket, hnone, handleSupabaseError]
  · intro hfind
    simp [deleteTicket, hfind, handleSupabaseError]

/-- Witness for C9: deleting the open fixture ticket returns 204; the second
delete of the same id returns 404. -/
theorem deleteTicket_spec_witness :
    (deleteTicket storeOpen "t2" true).res = DeleteResult.noContent
    ∧ (deleteTicket (deleteTicket storeOpen "t2" true).store "t2" true).res
        = DeleteResult.storeFail { status := 404, error := "Ticket not found" } := by
  have h := (deleteTicket_spec storeOpen "t2" true).1 openTicket rfl
  exact ⟨h.1, h.2.2.2⟩

/-! ### C10 -/

/-- C10: field presence in Update is asymmetric: assignee_id counts as
supplied whenever the key is present (even as JSON null, which clears the
assignee and leaves the status untouched), while status counts as supplied
only when truthy — so a request carrying only an empty-string status is
rejected with "no fields to update" and writes nothing. -/
theorem updateTicket_presence (st : Store) (id : String) (now : Nat) (ok : Bool) :
    ((updateTicket st id now ok { assignee_id := none, status := some "" }).res
        = .badRequest "No fields to update provided."
      ∧ (updateTicket st id now ok { assignee_id := none, status := some "" }).store = st
      ∧ Ev.storeWrite ∉
          (updateTicket st id now ok { assignee_id := none, status := some "" }).events)
    ∧ (∀ t, st.tickets.find? (fun u => u.id == id) = some t →
        (updateTicket st id now ok { assignee_id := some none, status := none }).res
          = .updated { t with assignee_id := none, updated_at := now }) := by
  constructor
  · simp [updateTicket, truthy]
  · intro t hfind
    simp [updateTicket, truthy, hfind, assigneeTriggerRejects]

/-- Witness for C10: on the open fixture ticket, a request whose only field
is an empty status is rejected, while a null assignee clears the
assignment. -/
theorem updateTicket_presence_witness :
    (updateTicket storeOpen "t2" 9 true { assignee_id := none, status := some "" }).res
      = UpdateResult.badRequest "No fields to update provided."
    ∧ (updateTicket storeOpen "t2" 9 true { assignee_id := some none, status := none }).res
      = UpdateResult.updated { openTicket with assignee_id := none, updated_at := 9 } := by
  have h := updateTicket_presence storeOpen "t2" 9 true
  exact ⟨h.1.1, h.2 openTicket rfl⟩

end RVM
